import Mathlib

/-!
The conditional-compilation header `OsvvmVSchedPli.h`, as a state-passing model.

The header consists of preprocessor directives only.  Each directive is
embedded as a step on an explicit preprocessor state (the table of object-like
definitions, the list of headers pulled in, and the text lines produced so
far); a conditional group becomes an `if` on the table.  The four text lines at
the end of the header are expanded against the table and then read back as
declarations.
-/

namespace OsvvmVSchedPli

/-! ## Tokens and the preprocessor state -/

/-- Preprocessing tokens occurring in the header. -/
inductive Tok where
  | ident (s : String)
  | num (n : Nat)
  | strlit (s : String)
  | star
  | comma
  | lparen
  | rparen
  | semi
  deriving DecidableEq, Repr

/-- Table of object-like definitions, most recent first. -/
abbrev Defs := List (String × List Tok)

/-- Replacement list of the most recent active definition of `name`. -/
def lookupDef : Defs → String → Option (List Tok)
  | [], _ => none
  | (n, body) :: rest, name => if n = name then some body else lookupDef rest name

/-- State of the preprocessor while it reads the header. -/
structure PP where
  defs : Defs
  includes : List String
  out : List (List Tok)
  deriving DecidableEq, Repr

namespace PP

/-- The test of `defined(name)`, `ifdef name`. -/
def isDefined (s : PP) (name : String) : Bool :=
  (lookupDef s.defs name).isSome

/-- A `define name body` directive: the new definition becomes the effective one. -/
def define (s : PP) (name : String) (body : List Tok) : PP :=
  { s with defs := (name, body) :: s.defs }

/-- An `include <h>` directive of a header that is not part of this file: it
is recorded, and contributes nothing to the table of this header's names. -/
def incl (s : PP) (h : String) : PP :=
  { s with includes := s.includes ++ [h] }

end PP

/-- Expansion of object-like definitions with rescanning; `fuel` bounds the
nesting depth of replacement lists. -/
def expand : Nat → Defs → List Tok → List Tok
  | 0, _, ts => ts
  | fuel + 1, ds, ts =>
    ts.flatMap fun t =>
      match t with
      | .ident s =>
        match lookupDef ds s with
        | some body => expand fuel ds body
        | none => [t]
      | _ => [t]

namespace PP

/-- A text line: expanded against the current table and appended to the output. -/
def text (s : PP) (line : List Tok) : PP :=
  { s with out := s.out ++ [expand (s.defs.length + 1) s.defs line] }

end PP

/-! ## Build configurations -/

/-- Build configuration: which of the five flags are defined when the header is read. -/
structure Config where
  cplusplus : Bool
  ALDEC : Bool
  USE_VHPI : Bool
  VHDLINTEGER64 : Bool
  NVC : Bool
  deriving DecidableEq, Repr

/-- A flag that is defined enters the table with the value `1`. -/
def flag (b : Bool) (name : String) : Defs :=
  if b then [(name, [Tok.num 1])] else []

/-- State in which the header is read for the first time under `cfg`. -/
def initial (cfg : Config) : PP :=
  { defs := flag cfg.cplusplus "__cplusplus" ++ flag cfg.ALDEC "ALDEC" ++
      flag cfg.USE_VHPI "USE_VHPI" ++ flag cfg.VHDLINTEGER64 "VHDLINTEGER64" ++
      flag cfg.NVC "NVC"
    includes := []
    out := [] }

/-! ## The header -/

section
open Tok

/-- The header `OsvvmVSchedPli.h`, directive by directive. -/
def header (s0 : PP) : PP :=
  let s := s0.incl "string.h"
  let s := s.incl "stdint.h"
  if s.isDefined "_OSVVM_VSCHED_PLI_H_" then s else
  let s := s.define "_OSVVM_VSCHED_PLI_H_" []
  let s :=
    if s.isDefined "__cplusplus" then s.define "LINKAGE" [strlit "C"]
    else s.define "LINKAGE" []
  let s := if s.isDefined "ALDEC" then s.define "USE_VHPI" [] else s
  let s :=
    if !s.isDefined "USE_VHPI" then
      let s :=
        if s.isDefined "VHDLINTEGER64" then s.define "vint_t" [ident "int64_t"]
        else s.define "vint_t" [ident "int32_t"]
      let s := s.define "VINIT_PARAMS" [ident "vint_t", ident "node"]
      let s := s.define "VTRANS_PARAMS"
        [ident "vint_t", ident "node", comma, ident "vint_t", ident "Interrupt", comma,
         ident "vint_t", ident "VPStatus", comma, ident "vint_t", ident "VPCount", comma,
         ident "vint_t", ident "VPCountSec", comma,
         ident "vint_t", star, ident "VPData", comma,
         ident "vint_t", star, ident "VPDataHi", comma,
         ident "vint_t", star, ident "VPDataWidth", comma,
         ident "vint_t", star, ident "VPAddr", comma,
         ident "vint_t", star, ident "VPAddrHi", comma,
         ident "vint_t", star, ident "VPAddrWidth", comma,
         ident "vint_t", star, ident "VPOp", comma,
         ident "vint_t", star, ident "VPBurstSize", comma,
         ident "vint_t", star, ident "VPTicks", comma,
         ident "vint_t", star, ident "VPDone", comma,
         ident "vint_t", star, ident "VPError", comma,
         ident "vint_t", star, ident "VPParam"]
      let s := s.define "VGETBURSTWRBYTE_PARAMS"
        [ident "vint_t", ident "node", comma, ident "vint_t", ident "idx", comma,
         ident "vint_t", star, ident "data"]
      let s := s.define "VSETBURSTRDBYTE_PARAMS"
        [ident "vint_t", ident "node", comma, ident "vint_t", ident "idx", comma,
         ident "vint_t", ident "data"]
      s.define "VPROC_RTN_TYPE" [ident "void"]
    else
      let s := s.incl "vhpi_user.h"
      let s := if s.isDefined "ALDEC" then s.incl "aldecpli.h" else s
      let s := s.define "VINIT_PARAMS"
        [ident "const", ident "struct", ident "vhpiCbDataS", star, ident "cb"]
      let s := s.define "VTRANS_PARAMS"
        [ident "const", ident "struct", ident "vhpiCbDataS", star, ident "cb"]
      let s := s.define "VGETBURSTWRBYTE_PARAMS"
        [ident "const", ident "struct", ident "vhpiCbDataS", star, ident "cb"]
      let s := s.define "VSETBURSTRDBYTE_PARAMS"
        [ident "const", ident "struct", ident "vhpiCbDataS", star, ident "cb"]
      let s := s.define "VINIT_NUM_ARGS" [num 1]
      let s := s.define "VTRANS_NUM_ARGS" [num 17]
      let s := s.define "VGETBURSTWRBYTE_NUM_ARGS" [num 3]
      let s := s.define "VSETBURSTRDBYTE_NUM_ARGS" [num 3]
      let s := s.define "VTRANS_START_OF_OUTPUTS" [num 5]
      let s := s.define "VGETBURSTWRBYTE_START_OF_OUTPUTS" [num 2]
      let s := s.define "VPROC_RTN_TYPE" [ident "PLI_VOID"]
      let s :=
        if s.isDefined "ALDEC" then s.define "VPROC_RTN_TYPE" [ident "PLI_VOID"]
        else s.define "VPROC_RTN_TYPE" [ident "void"]
      if s.isDefined "NVC" then s.define "vhpiForeignT" [ident "vhpiForeignKindT"] else s
  let s := s.text [ident "extern", ident "LINKAGE", ident "VPROC_RTN_TYPE", ident "VInit",
    lparen, ident "VINIT_PARAMS", rparen, semi]
  let s := s.text [ident "extern", ident "LINKAGE", ident "VPROC_RTN_TYPE", ident "VTrans",
    lparen, ident "VTRANS_PARAMS", rparen, semi]
  let s := s.text [ident "extern", ident "LINKAGE", ident "VPROC_RTN_TYPE",
    ident "VSetBurstRdByte", lparen, ident "VSETBURSTRDBYTE_PARAMS", rparen, semi]
  let s := s.text [ident "extern", ident "LINKAGE", ident "VPROC_RTN_TYPE",
    ident "VGetBurstWrByte", lparen, ident "VGETBURSTWRBYTE_PARAMS", rparen, semi]
  s

end

/-- State after the header has been read once under `cfg`. -/
def final (cfg : Config) : PP := header (initial cfg)

/-- Replacement list that is in effect for `name` once the header has been read:
the last active definition. -/
def effective (cfg : Config) (name : String) : Option (List Tok) :=
  lookupDef (final cfg).defs name

/-- VHPI is enabled: `USE_VHPI` is given by the build, or `ALDEC` is. -/
def vhpi (cfg : Config) : Bool := cfg.USE_VHPI || cfg.ALDEC

/-! ## Reading the declarations back -/

/-- One parameter of a declaration: the tokens of its type, and its name. -/
structure Param where
  ty : List Tok
  name : String
  deriving DecidableEq, Repr

/-- One declaration `extern linkage ret name (params);`. -/
structure Decl where
  linkage : List Tok
  ret : List Tok
  name : String
  params : List Param
  deriving DecidableEq, Repr

/-- Splits a token list at its commas. -/
def splitCommas : List Tok → List (List Tok)
  | [] => [[]]
  | .comma :: ts => [] :: splitCommas ts
  | t :: ts =>
    match splitCommas ts with
    | [] => [[t]]
    | g :: gs => (t :: g) :: gs

/-- A parameter is a non-empty type followed by an identifier. -/
def parseParam (g : List Tok) : Option Param :=
  match g.reverse with
  | .ident n :: t :: rty => some { ty := (t :: rty).reverse, name := n }
  | _ => none

/-- All groups must be parameters. -/
def parseGroups : List (List Tok) → Option (List Param)
  | [] => some []
  | g :: gs =>
    match parseParam g, parseGroups gs with
    | some p, some ps => some (p :: ps)
    | _, _ => none

/-- A comma-separated parameter list. -/
def parseParams (ts : List Tok) : Option (List Param) :=
  parseGroups (splitCommas ts)

/-- Reads one expanded text line as a declaration. -/
def parseDecl (line : List Tok) : Option Decl :=
  match line with
  | .ident "extern" :: rest =>
    let linkage := match rest with
      | .strlit l :: _ => [Tok.strlit l]
      | _ => []
    let rest := rest.drop linkage.length
    match (rest.takeWhile (· ≠ Tok.lparen)).reverse, rest.dropWhile (· ≠ Tok.lparen) with
    | .ident name :: rret, .lparen :: more =>
      match more.dropWhile (· ≠ Tok.rparen), parseParams (more.takeWhile (· ≠ Tok.rparen)) with
      | [.rparen, .semi], some ps =>
        some { linkage := linkage, ret := rret.reverse, name := name, params := ps }
      | _, _ => none
    | _, _ => none
  | _ => none

/-- Every line must be a declaration. -/
def parseLines : List (List Tok) → Option (List Decl)
  | [] => some []
  | l :: ls =>
    match parseDecl l, parseLines ls with
    | some d, some ds => some (d :: ds)
    | _, _ => none

/-- The declarations the header makes under `cfg`, in order. -/
def declarations (cfg : Config) : Option (List Decl) :=
  parseLines (final cfg).out

/-- The four entry points. -/
inductive Routine where
  | VInit
  | VTrans
  | VSetBurstRdByte
  | VGetBurstWrByte
  deriving DecidableEq, Repr

namespace Routine

/-- Name under which the routine is declared. -/
def name : Routine → String
  | VInit => "VInit"
  | VTrans => "VTrans"
  | VSetBurstRdByte => "VSetBurstRdByte"
  | VGetBurstWrByte => "VGetBurstWrByte"

/-- Name of the definition that holds the routine's parameter list. -/
def paramsName : Routine → String
  | VInit => "VINIT_PARAMS"
  | VTrans => "VTRANS_PARAMS"
  | VSetBurstRdByte => "VSETBURSTRDBYTE_PARAMS"
  | VGetBurstWrByte => "VGETBURSTWRBYTE_PARAMS"

/-- Name of the routine's argument-count constant. -/
def numArgsName : Routine → String
  | VInit => "VINIT_NUM_ARGS"
  | VTrans => "VTRANS_NUM_ARGS"
  | VSetBurstRdByte => "VSETBURSTRDBYTE_NUM_ARGS"
  | VGetBurstWrByte => "VGETBURSTWRBYTE_NUM_ARGS"

end Routine

/-- The declaration of routine `r` under `cfg`. -/
def declOf (cfg : Config) (r : Routine) : Option Decl :=
  match declarations cfg with
  | some ds => ds.find? fun d => d.name = r.name
  | none => none

/-- Parameters with which `r` is declared under `cfg`. -/
def params (cfg : Config) (r : Routine) : List Param :=
  match declOf cfg r with
  | some d => d.params
  | none => []

/-- The parameter list of `r` as its definition spells it, before `vint_t` is resolved. -/
def rawParams (cfg : Config) (r : Routine) : Option (List Param) :=
  match effective cfg r.paramsName with
  | some body => parseParams body
  | none => none

namespace Param

/-- The parameter is passed through a pointer. -/
def isPointer (p : Param) : Bool :=
  p.ty.getLast? = some Tok.star

/-- Spelled with `vint_t`: either `vint_t` or `vint_t*`. -/
def vintBased (p : Param) : Bool :=
  p.ty = [Tok.ident "vint_t"] || p.ty = [Tok.ident "vint_t", Tok.star]

/-- Width in bits of an integer or pointer-to-integer parameter; `none` for any other type. -/
def width (p : Param) : Option Nat :=
  if p.ty = [Tok.ident "int32_t"] || p.ty = [Tok.ident "int32_t", Tok.star] then some 32
  else if p.ty = [Tok.ident "int64_t"] || p.ty = [Tok.ident "int64_t", Tok.star] then some 64
  else none

end Param

/-- The single parameter of the VHPI shape, `const struct vhpiCbDataS* cb`. -/
def cbParam : Param :=
  { ty := [Tok.ident "const", Tok.ident "struct", Tok.ident "vhpiCbDataS", Tok.star]
    name := "cb" }

/-- A token that the table `ds` would still replace. -/
def replaceable (ds : Defs) : Tok → Bool
  | .ident s => (lookupDef ds s).isSome
  | _ => false

/-- Names of the definitions in effect after the header whose name ends in
`_START_OF_OUTPUTS`. -/
def startOfOutputsNames (cfg : Config) : List String :=
  ((final cfg).defs.map Prod.fst).filter fun n =>
    "_START_OF_OUTPUTS".toList.isSuffixOf n.toList

/-- The configuration in which none of the five flags is defined. -/
def plainCfg : Config :=
  { cplusplus := false, ALDEC := false, USE_VHPI := false, VHDLINTEGER64 := false, NVC := false }

/-- A configuration in which VHPI is enabled by `USE_VHPI` alone. -/
def vhpiCfg : Config :=
  { cplusplus := false, ALDEC := false, USE_VHPI := true, VHDLINTEGER64 := false, NVC := false }

/-- A configuration in which VHPI is enabled by `ALDEC` alone. -/
def aldecCfg : Config :=
  { cplusplus := false, ALDEC := true, USE_VHPI := false, VHDLINTEGER64 := false, NVC := false }

/-- A configuration without VHPI in which `VHDLINTEGER64` is defined. -/
def wideCfg : Config :=
  { cplusplus := false, ALDEC := false, USE_VHPI := false, VHDLINTEGER64 := true, NVC := false }

/-! ## Supporting lemmas -/

/-- The fuel given to `expand` suffices: no output token is replaceable any more. -/
theorem out_fully_expanded (cfg : Config) :
    ∀ line ∈ (final cfg).out, ∀ t ∈ line, replaceable (final cfg).defs t = false := by
  rcases cfg with ⟨a, b, c, d, e⟩
  cases a <;> cases b <;> cases c <;> cases d <;> cases e <;> decide

/-- The include guard: reading the header a second time adds no definition and no text. -/
theorem second_inclusion (cfg : Config) :
    (header (final cfg)).defs = (final cfg).defs ∧ (header (final cfg)).out = (final cfg).out := by
  rcases cfg with ⟨a, b, c, d, e⟩
  cases a <;> cases b <;> cases c <;> cases d <;> cases e <;> exact ⟨rfl, rfl⟩

/-- Without VHPI the parameter-list definitions are those of `plainCfg`. -/
theorem rawParams_plain (cfg : Config) (h : vhpi cfg = false) (r : Routine) :
    rawParams cfg r = rawParams plainCfg r := by
  rcases cfg with ⟨a, b, c, d, e⟩
  cases a <;> cases b <;> cases c <;> cases d <;> cases e <;> cases r <;>
    first
    | exact absurd h (by decide)
    | rfl

/-- With VHPI every parameter-list definition is the callback parameter. -/
theorem rawParams_vhpi (cfg : Config) (h : vhpi cfg = true) (r : Routine) :
    rawParams cfg r = some [cbParam] ∧ params cfg r = [cbParam] := by
  rcases cfg with ⟨a, b, c, d, e⟩
  cases a <;> cases b <;> cases c <;> cases d <;> cases e <;> cases r <;>
    first
    | exact absurd h (by decide)
    | exact ⟨rfl, rfl⟩

/-- Without VHPI the declared parameters keep names and pointer marks of the
definition; only `vint_t` is resolved. -/
theorem params_plain_shape (cfg : Config) (h : vhpi cfg = false) (r : Routine) :
    (params cfg r).map Param.name = (params plainCfg r).map Param.name ∧
    (params cfg r).map Param.isPointer = (params plainCfg r).map Param.isPointer ∧
    some ((params cfg r).map Param.name) = (rawParams cfg r).map (List.map Param.name) ∧
    some ((params cfg r).map Param.isPointer) =
      (rawParams cfg r).map (List.map Param.isPointer) := by
  rcases cfg with ⟨a, b, c, d, e⟩
  cases a <;> cases b <;> cases c <;> cases d <;> cases e <;> cases r <;>
    first
    | exact absurd h (by decide)
    | exact ⟨rfl, rfl, rfl, rfl⟩

/-- With VHPI the argument-count and start-of-outputs constants have these values. -/
theorem vhpi_constants (cfg : Config) (h : vhpi cfg = true) :
    effective cfg "VINIT_NUM_ARGS" = some [Tok.num 1] ∧
    effective cfg "VTRANS_NUM_ARGS" = some [Tok.num 17] ∧
    effective cfg "VGETBURSTWRBYTE_NUM_ARGS" = some [Tok.num 3] ∧
    effective cfg "VSETBURSTRDBYTE_NUM_ARGS" = some [Tok.num 3] ∧
    effective cfg "VTRANS_START_OF_OUTPUTS" = some [Tok.num 5] ∧
    effective cfg "VGETBURSTWRBYTE_START_OF_OUTPUTS" = some [Tok.num 2] ∧
    startOfOutputsNames cfg =
      ["VGETBURSTWRBYTE_START_OF_OUTPUTS", "VTRANS_START_OF_OUTPUTS"] := by
  rcases cfg with ⟨a, b, c, d, e⟩
  cases a <;> cases b <;> cases c <;> cases d <;> cases e <;>
    first
    | exact absurd h (by decide)
    | exact ⟨rfl, rfl, rfl, rfl, rfl, rfl, by decide⟩

/-- Every definition of VPROC_RTN_TYPE that the header makes, the effective one
first: with VHPI the name is defined twice, and without ALDEC the second
definition replaces `PLI_VOID` by `void`. -/
theorem rtn_type_definitions (cfg : Config) :
    ((final cfg).defs.filter fun d => d.1 = "VPROC_RTN_TYPE").map Prod.snd =
      if vhpi cfg then
        [[Tok.ident (if cfg.ALDEC then "PLI_VOID" else "void")], [Tok.ident "PLI_VOID"]]
      else [[Tok.ident "void"]] := by
  rcases cfg with ⟨a, b, c, d, e⟩
  cases a <;> cases b <;> cases c <;> cases d <;> cases e <;> rfl

/-! ## The claims -/

/-- C1: under every build configuration the header makes exactly four
declarations, each introduced by the keyword for external linkage, named VInit,
VTrans, VSetBurstRdByte and VGetBurstWrByte (in this order), and the return type
of each of them is the one to which VPROC_RTN_TYPE resolves. -/
theorem C1_four_declarations (cfg : Config) :
    (final cfg).out.length = 4 ∧
    (∀ line ∈ (final cfg).out, line.head? = some (Tok.ident "extern")) ∧
    (∃ ds, declarations cfg = some ds ∧
      ds.map Decl.name = ["VInit", "VTrans", "VSetBurstRdByte", "VGetBurstWrByte"] ∧
      ∀ d ∈ ds, some d.ret = effective cfg "VPROC_RTN_TYPE") ∧
    ∀ r : Routine, ∃ d, declOf cfg r = some d ∧ d.name = r.name ∧
      some d.ret = effective cfg "VPROC_RTN_TYPE" := by
  rcases cfg with ⟨a, b, c, d, e⟩
  cases a <;> cases b <;> cases c <;> cases d <;> cases e <;>
    refine ⟨rfl, by decide, ⟨_, rfl, rfl, by decide⟩, fun r => ?_⟩ <;>
    cases r <;> exact ⟨_, rfl, rfl, rfl⟩

/-- C2: the parameter lists take one of two shapes, selected by `vhpi cfg`
alone.  Without VHPI the lists of VInit, VTrans, VGetBurstWrByte and
VSetBurstRdByte have 1, 17, 3 and 3 parameters, all spelled with vint_t, and the
declarations have as many; with VHPI every list is the single parameter
`const struct vhpiCbDataS* cb`.  ALDEC alone enables VHPI as USE_VHPI alone
does. -/
theorem C2_parameter_shapes (cfg : Config) :
    (vhpi cfg = false →
      (∀ r : Routine, ∃ ps, rawParams cfg r = some ps ∧
        (∀ p ∈ ps, p.vintBased = true) ∧ (params cfg r).length = ps.length) ∧
      (params cfg .VInit).length = 1 ∧ (params cfg .VTrans).length = 17 ∧
      (params cfg .VGetBurstWrByte).length = 3 ∧
      (params cfg .VSetBurstRdByte).length = 3) ∧
    (vhpi cfg = true →
      ∀ r : Routine, rawParams cfg r = some [cbParam] ∧ params cfg r = [cbParam]) ∧
    (∀ cfg2 : Config, vhpi cfg2 = vhpi cfg → ∀ r : Routine,
      rawParams cfg2 r = rawParams cfg r ∧
      (params cfg2 r).map Param.name = (params cfg r).map Param.name ∧
      (params cfg2 r).map Param.isPointer = (params cfg r).map Param.isPointer) ∧
    (cfg.ALDEC = true → cfg.USE_VHPI = false →
      ∀ r : Routine, rawParams cfg r = rawParams vhpiCfg r ∧
        params cfg r = params vhpiCfg r) := by
  refine ⟨fun h => ?_, fun h r => rawParams_vhpi cfg h r, fun cfg2 h2 r => ?_, fun hA _ r => ?_⟩
  · have hlen : ∀ r : Routine, (params cfg r).length = (params plainCfg r).length := fun r => by
      have := congrArg List.length (params_plain_shape cfg h r).1
      simpa using this
    refine ⟨fun r => ?_, ?_, ?_, ?_, ?_⟩
    · rw [rawParams_plain cfg h r, hlen r]
      cases r <;> exact ⟨_, rfl, by decide, rfl⟩
    · rw [hlen]; rfl
    · rw [hlen]; rfl
    · rw [hlen]; rfl
    · rw [hlen]; rfl
  · cases h : vhpi cfg with
    | false =>
      rw [h] at h2
      have e1 := params_plain_shape cfg h r
      have e2 := params_plain_shape cfg2 h2 r
      exact ⟨by rw [rawParams_plain cfg h r, rawParams_plain cfg2 h2 r],
        e2.1.trans e1.1.symm, e2.2.1.trans e1.2.1.symm⟩
    | true =>
      rw [h] at h2
      have e1 := rawParams_vhpi cfg h r
      have e2 := rawParams_vhpi cfg2 h2 r
      exact ⟨by rw [e1.1, e2.1], by rw [e1.2, e2.2], by rw [e1.2, e2.2]⟩
  · have hv : vhpi cfg = true := by simp [vhpi, hA]
    have e1 := rawParams_vhpi cfg hv r
    have e2 := rawParams_vhpi vhpiCfg (by decide) r
    exact ⟨by rw [e1.1, e2.1], by rw [e1.2, e2.2]⟩

/-- Witness of C2: the 17 parameters of VTrans at `plainCfg`, and the callback
parameter at `aldecCfg`, where only ALDEC is defined. -/
theorem C2_parameter_shapes_witness :
    vhpi plainCfg = false ∧ (params plainCfg .VTrans).length = 17 ∧
    vhpi aldecCfg = true ∧ params aldecCfg .VTrans = [cbParam] ∧
    params aldecCfg .VTrans = params vhpiCfg .VTrans :=
  ⟨by decide, ((C2_parameter_shapes plainCfg).1 (by decide)).2.2.1,
    by decide, ((C2_parameter_shapes aldecCfg).2.1 (by decide) .VTrans).2,
    ((C2_parameter_shapes aldecCfg).2.2.2 rfl rfl .VTrans).2⟩

/-- C3: the return type resolves to `void` or to `PLI_VOID`, where the last
active definition of VPROC_RTN_TYPE is the effective one; it is `PLI_VOID`
exactly when ALDEC is defined, and `void` in every configuration without ALDEC,
USE_VHPI included.  All four declarations carry it. -/
theorem C3_return_type (cfg : Config) :
    (effective cfg "VPROC_RTN_TYPE" = some [Tok.ident "void"] ∨
      effective cfg "VPROC_RTN_TYPE" = some [Tok.ident "PLI_VOID"]) ∧
    (effective cfg "VPROC_RTN_TYPE" = some [Tok.ident "PLI_VOID"] ↔ cfg.ALDEC = true) ∧
    (cfg.ALDEC = false → effective cfg "VPROC_RTN_TYPE" = some [Tok.ident "void"]) ∧
    ∀ r : Routine, (declOf cfg r).map Decl.ret =
      some (if cfg.ALDEC then [Tok.ident "PLI_VOID"] else [Tok.ident "void"]) := by
  rcases cfg with ⟨a, b, c, d, e⟩
  cases a <;> cases b <;> cases c <;> cases d <;> cases e <;>
    refine ⟨by decide, by decide, by decide, fun r => ?_⟩ <;>
    cases r <;> rfl

/-- Witness of C3: USE_VHPI without ALDEC gives `void`. -/
theorem C3_return_type_witness :
    vhpiCfg.USE_VHPI = true ∧ vhpiCfg.ALDEC = false ∧
    effective vhpiCfg "VPROC_RTN_TYPE" = some [Tok.ident "void"] :=
  ⟨rfl, rfl, (C3_return_type vhpiCfg).2.2.1 rfl⟩

/-- C4: when VHDLINTEGER64 is defined, every integer and pointer-to-integer
parameter of the four routines is 64 bits wide; without VHPI and without
VHDLINTEGER64 every parameter is an integer or pointer to integer of 32 bits
(and without VHPI but with VHDLINTEGER64, of 64 bits).  No parameter list
holds both widths. -/
theorem C4_integer_width (cfg : Config) (r : Routine) :
    (cfg.VHDLINTEGER64 = true →
      ∀ p ∈ params cfg r, p.width ≠ none → p.width = some 64) ∧
    (vhpi cfg = false → cfg.VHDLINTEGER64 = true →
      ∀ p ∈ params cfg r, p.width = some 64) ∧
    (vhpi cfg = false → cfg.VHDLINTEGER64 = false →
      ∀ p ∈ params cfg r, p.width = some 32) ∧
    (∀ p ∈ params cfg r, ∀ q ∈ params cfg r,
      p.width ≠ none → q.width ≠ none → p.width = q.width) := by
  rcases cfg with ⟨a, b, c, d, e⟩
  cases a <;> cases b <;> cases c <;> cases d <;> cases e <;> cases r <;> decide

/-- Witness of C4: the 17 parameters of VTrans at `wideCfg` are all 64 bits
wide, and at `plainCfg` all 32 bits wide. -/
theorem C4_integer_width_witness :
    wideCfg.VHDLINTEGER64 = true ∧ vhpi wideCfg = false ∧
    (params wideCfg .VTrans).length = 17 ∧
    (∀ p ∈ params wideCfg .VTrans, p.width = some 64) ∧
    (∀ p ∈ params plainCfg .VTrans, p.width = some 32) :=
  ⟨rfl, by decide, rfl, (C4_integer_width wideCfg .VTrans).2.1 (by decide) rfl,
    (C4_integer_width plainCfg .VTrans).2.2.1 (by decide) rfl⟩

/-- C5: the linkage specifier of all four declarations is "C" exactly when
__cplusplus is defined, and absent otherwise, whatever the other four flags
are. -/
theorem C5_linkage (cfg : Config) :
    effective cfg "LINKAGE" = some (if cfg.cplusplus then [Tok.strlit "C"] else []) ∧
    (∀ r : Routine, (declOf cfg r).map Decl.linkage =
      some (if cfg.cplusplus then [Tok.strlit "C"] else [])) ∧
    (∀ r : Routine,
      ((declOf cfg r).map Decl.linkage = some [Tok.strlit "C"] ↔ cfg.cplusplus = true)) ∧
    ∀ aldec useVhpi int64 nvc, ∀ r : Routine,
      (declOf { cfg with ALDEC := aldec, USE_VHPI := useVhpi, VHDLINTEGER64 := int64,
                         NVC := nvc } r).map Decl.linkage =
        (declOf cfg r).map Decl.linkage := by
  have key : ∀ c : Config, ∀ r : Routine, (declOf c r).map Decl.linkage =
      some (if c.cplusplus then [Tok.strlit "C"] else []) := by
    rintro ⟨a, b, c, d, e⟩ r
    cases a <;> cases b <;> cases c <;> cases d <;> cases e <;> cases r <;> rfl
  refine ⟨?_, key cfg, fun r => ?_, fun aldec useVhpi int64 nvc r => ?_⟩
  · rcases cfg with ⟨a, b, c, d, e⟩
    cases a <;> cases b <;> cases c <;> cases d <;> cases e <;> rfl
  · rw [key cfg r]
    cases cfg.cplusplus <;> decide
  · rw [key, key]

/-- C6: each argument-count constant of a VHPI build equals the number of
parameters that the same routine has in a build without VHPI: 1 for VInit, 17 for
VTrans, 3 for VGetBurstWrByte and 3 for VSetBurstRdByte. -/
theorem C6_num_args_agree (cv cn : Config) (hv : vhpi cv = true) (hn : vhpi cn = false) :
    (∀ r : Routine, effective cv r.numArgsName = some [Tok.num (params cn r).length] ∧
      (rawParams cn r).map List.length = some (params cn r).length) ∧
    effective cv "VINIT_NUM_ARGS" = some [Tok.num 1] ∧
    effective cv "VTRANS_NUM_ARGS" = some [Tok.num 17] ∧
    effective cv "VGETBURSTWRBYTE_NUM_ARGS" = some [Tok.num 3] ∧
    effective cv "VSETBURSTRDBYTE_NUM_ARGS" = some [Tok.num 3] := by
  have k := vhpi_constants cv hv
  have hlen : ∀ r : Routine, (params cn r).length = (params plainCfg r).length := fun r => by
    have := congrArg List.length (params_plain_shape cn hn r).1
    simpa using this
  refine ⟨fun r => ?_, k.1, k.2.1, k.2.2.1, k.2.2.2.1⟩
  rw [rawParams_plain cn hn r, hlen r]
  cases r
  · exact ⟨k.1, rfl⟩
  · exact ⟨k.2.1, rfl⟩
  · exact ⟨k.2.2.2.1, rfl⟩
  · exact ⟨k.2.2.1, rfl⟩

/-- Witness of C6 at `vhpiCfg` and `plainCfg`. -/
theorem C6_num_args_agree_witness :
    vhpi vhpiCfg = true ∧ vhpi plainCfg = false ∧
    effective vhpiCfg "VTRANS_NUM_ARGS" = some [Tok.num 17] ∧
    ∀ r : Routine,
      effective vhpiCfg r.numArgsName = some [Tok.num (params plainCfg r).length] ∧
      (rawParams plainCfg r).map List.length = some (params plainCfg r).length :=
  ⟨by decide, by decide,
    (C6_num_args_agree vhpiCfg plainCfg (by decide) (by decide)).2.2.1,
    (C6_num_args_agree vhpiCfg plainCfg (by decide) (by decide)).1⟩

/-- C7: without VHPI the by-value parameters come first and the pointer
parameters last, and the START_OF_OUTPUTS constants of the VHPI build mark the
split: in VTrans positions 0..4 are `vint_t` and positions 5..16 are `vint_t*`,
with constant 5; in VGetBurstWrByte positions 0..1 are `vint_t` and position 2,
data, is `vint_t*`, with constant 2.  No other START_OF_OUTPUTS constant is
defined, and VInit and VSetBurstRdByte have no pointer parameter, data of
VSetBurstRdByte being passed by value. -/
theorem C7_inputs_before_outputs (cv cn : Config)
    (hv : vhpi cv = true) (hn : vhpi cn = false) :
    (effective cv "VTRANS_START_OF_OUTPUTS" = some [Tok.num 5] ∧
      (∃ ps, rawParams cn .VTrans = some ps ∧ ps.length = 17 ∧
        (∀ p ∈ ps.take 5, p.ty = [Tok.ident "vint_t"]) ∧
        (∀ p ∈ ps.drop 5, p.ty = [Tok.ident "vint_t", Tok.star])) ∧
      (params cn .VTrans).map Param.isPointer =
        List.replicate 5 false ++ List.replicate 12 true) ∧
    (effective cv "VGETBURSTWRBYTE_START_OF_OUTPUTS" = some [Tok.num 2] ∧
      (∃ ps, rawParams cn .VGetBurstWrByte = some ps ∧ ps.length = 3 ∧
        (∀ p ∈ ps.take 2, p.ty = [Tok.ident "vint_t"]) ∧
        (∀ p ∈ ps.drop 2, p.ty = [Tok.ident "vint_t", Tok.star] ∧ p.name = "data")) ∧
      (params cn .VGetBurstWrByte).map Param.isPointer = [false, false, true]) ∧
    startOfOutputsNames cv =
      ["VGETBURSTWRBYTE_START_OF_OUTPUTS", "VTRANS_START_OF_OUTPUTS"] ∧
    ((∃ ps, rawParams cn .VInit = some ps ∧ ∀ p ∈ ps, p.ty = [Tok.ident "vint_t"]) ∧
      ∀ p ∈ params cn .VInit, p.isPointer = false) ∧
    ((∃ ps, rawParams cn .VSetBurstRdByte = some ps ∧
        (∀ p ∈ ps, p.ty = [Tok.ident "vint_t"]) ∧
        ps.map Param.name = ["node", "idx", "data"]) ∧
      ∀ p ∈ params cn .VSetBurstRdByte, p.isPointer = false) := by
  have k := vhpi_constants cv hv
  have hp : ∀ r : Routine,
      (params cn r).map Param.isPointer = (params plainCfg r).map Param.isPointer :=
    fun r => (params_plain_shape cn hn r).2.1
  have hnp : ∀ r : Routine, (∀ b ∈ (params plainCfg r).map Param.isPointer, b = false) →
      ∀ p ∈ params cn r, p.isPointer = false := fun r hall p hmem =>
    hall _ (by rw [← hp r]; exact List.mem_map_of_mem _ hmem)
  refine ⟨⟨k.2.2.2.2.1, ?_, ?_⟩, ⟨k.2.2.2.2.2.1, ?_, ?_⟩, k.2.2.2.2.2.2, ⟨?_, ?_⟩, ⟨?_, ?_⟩⟩
  · rw [rawParams_plain cn hn]
    exact ⟨_, rfl, rfl, by decide, by decide⟩
  · rw [hp]; rfl
  · rw [rawParams_plain cn hn]
    exact ⟨_, rfl, rfl, by decide, by decide⟩
  · rw [hp]; rfl
  · rw [rawParams_plain cn hn]
    exact ⟨_, rfl, by decide⟩
  · exact hnp _ (by decide)
  · rw [rawParams_plain cn hn]
    exact ⟨_, rfl, by decide, rfl⟩
  · exact hnp _ (by decide)

/-- Witness of C7 at `vhpiCfg` and `plainCfg`. -/
theorem C7_inputs_before_outputs_witness :
    vhpi vhpiCfg = true ∧ vhpi plainCfg = false ∧
    effective vhpiCfg "VTRANS_START_OF_OUTPUTS" = some [Tok.num 5] ∧
    (params plainCfg .VTrans).map Param.isPointer =
      List.replicate 5 false ++ List.replicate 12 true ∧
    effective vhpiCfg "VGETBURSTWRBYTE_START_OF_OUTPUTS" = some [Tok.num 2] ∧
    (params plainCfg .VGetBurstWrByte).map Param.isPointer = [false, false, true] :=
  ⟨by decide, by decide,
    (C7_inputs_before_outputs vhpiCfg plainCfg (by decide) (by decide)).1.1,
    (C7_inputs_before_outputs vhpiCfg plainCfg (by decide) (by decide)).1.2.2,
    (C7_inputs_before_outputs vhpiCfg plainCfg (by decide) (by decide)).2.1.1,
    (C7_inputs_before_outputs vhpiCfg plainCfg (by decide) (by decide)).2.1.2.2⟩

end OsvvmVSchedPli
